import Mathlib

/-!
Verification development for the flask-oauth2-validation token-verification
core.  The package under verification ships only its functional tests and
packaging metadata in this tree, so the verifier construction
(`OAuth2Decorator.__init__`), the key store and the token-verification entry
point are modelled from the specification (spec.md sections 4.1-4.4, 7) with
the attribute names taken from the functional tests
(src/tests/functional/test_init.py).
-/

namespace FlaskOAuth2

/-- Modelled from the spec: the configuration bag supplied at construction
time (spec section 3 "Configuration" and section 6's option table; the
implementation module holding the real config parsing is not in the tree).
Field names follow the OAUTH2_* keys of the functional tests. -/
structure Config where
  issuer : Option String
  jwks_uri : Option String
  client_id : Option String
  client_secret : Option String
  jwks_update_interval : Option Nat
  introspection_endpoint : Option String
deriving Repr, DecidableEq

/-- Modelled from the spec: the discovery document fetched from the issuer's
well-known path (spec section 4.2), exposing at minimum the key-set URI, the
introspection endpoint and the supported introspection auth methods. -/
structure DiscoveryDocument where
  jwks_uri : String
  introspection_endpoint : String
  introspection_endpoint_auth_methods_supported : List String
deriving Repr, DecidableEq

/-- Modelled from the spec: a self-encoded token as the verifier sees it
(spec section 4.4): header key id and algorithm, the standard claims, and an
abstract signature-validity predicate standing for the cryptographic check
against a given key material (the crypto library is an external collaborator). -/
structure Token where
  kid : String
  alg : String
  iss : String
  sub : String
  exp : Nat
  scope : List String
  sigValid : String → Bool

/-- Modelled from the spec: the introspection endpoint's response body
(spec section 4.4 step 2); `active` is `none` when the field is absent. -/
structure IntrospectionResponse where
  active : Option Bool
  sub : String
  iss : String
  exp : Nat
  scope : List String
deriving Repr, DecidableEq

/-- Modelled from the spec: the normalized claims result of a successful
verification (spec section 3 "TokenClaims"). -/
structure TokenClaims where
  sub : String
  iss : String
  exp : Nat
  scope : List String
deriving Repr, DecidableEq

/-- Modelled from the spec: the construction-time error taxonomy
(spec section 7).  The functional tests pin the configuration error to
Python's built-in TypeError (pytest.raises(TypeError) in test_missing_config
and test_introspection_setup_without_secret), so the configuration-error
constructor is named after it; there is no dedicated configuration-error
exception type. -/
inductive InitError
  | typeError
  | discoveryError
  | keyFetchError
deriving Repr, DecidableEq

/-- Modelled from the spec: per-call verification failures (spec section 7):
format errors and verification failures surface to the caller as an
invalid-token outcome; an introspection transport failure surfaces as a
verification failure. -/
inductive VerifyError
  | invalidToken
  | transportError
deriving Repr, DecidableEq

/-- Modelled from the spec: the outside world the core calls through an
interface (spec sections 1 and 6): discovery-metadata fetch, key-set fetch by
URI, introspection call, each returning `none` on transport/parse failure. -/
structure Env where
  discovery : Option DiscoveryDocument
  fetchKeys : String → Option (List (String × String))
  introspect : Token → Option IntrospectionResponse

/-- Modelled from the spec: the constructed verifier's state (spec sections
3 and 4.1), with the attribute names asserted by the functional tests.
`_executor` records whether the recurring background refresh task exists. -/
structure Decorator where
  _issuer : String
  _jwks_uri : String
  _issuer_public_keys : List (String × String)
  _client_id : Option String
  _client_secret : Option String
  _jwks_update_interval : Option Nat
  _executor : Bool
  _jwks_last_update_timestamp : Option Nat
  _introspection_endpoint : Option String
  _introspection_auth_method : Option String

/-- Modelled from the spec: the auth methods the library itself can speak,
in preference order — the design decision favors client_secret_post when
offered (spec section 4.1). -/
def libraryAuthMethods : List String :=
  ["client_secret_post", "client_secret_basic"]

/-- Modelled from the spec: select the first mutually supported introspection
auth method (spec section 4.1 derivation rules). -/
def selectAuthMethod (offered : List String) : Option String :=
  libraryAuthMethods.find? (fun m => offered.contains m)

/-- Modelled from the spec: the decorator state before introspection wiring
(spec section 4.1): refresh-task and last-refresh-timestamp initialization
happen exactly when an interval is configured. -/
def baseDecorator (now : Nat) (cfg : Config) (iss juri : String)
    (keys : List (String × String)) : Decorator :=
  { _issuer := iss
    _jwks_uri := juri
    _issuer_public_keys := keys
    _client_id := cfg.client_id
    _client_secret := cfg.client_secret
    _jwks_update_interval := cfg.jwks_update_interval
    _executor := cfg.jwks_update_interval.isSome
    _jwks_last_update_timestamp :=
      if cfg.jwks_update_interval.isSome then some now else none
    _introspection_endpoint := none
    _introspection_auth_method := none }

/-- Modelled from the spec: the tail of construction once endpoints are
resolved (spec section 4.1): synchronous initial key fetch (fatal on
failure) and auth-method selection when the credential pair is present. -/
def finishInit (env : Env) (now : Nat) (cfg : Config) (iss juri ep : String)
    (methods : List String) : Except InitError Decorator :=
  match env.fetchKeys juri with
  | none => .error .keyFetchError
  | some keys =>
    if cfg.client_id.isSome then
      match selectAuthMethod methods with
      | none => .error .typeError
      | some m =>
        .ok { baseDecorator now cfg iss juri keys with
                _introspection_endpoint := some ep
                _introspection_auth_method := some m }
    else
      .ok (baseDecorator now cfg iss juri keys)

/-- Construction trace: the result together with whether the discovery
metadata endpoint was fetched. -/
structure InitTrace where
  result : Except InitError Decorator
  discoveryCalled : Bool

/-- Modelled from the spec: verifier construction (OAuth2Decorator.__init__,
whose module is not in the tree; spec section 4.1).  Validation: issuer is
mandatory; the client credential pair must be complete.  Derivation:
discovery metadata is fetched exactly when the key-set URI is missing or the
credential pair is present (endpoint derivation and auth-method discovery);
explicit values take precedence over discovered ones. -/
def init (env : Env) (now : Nat) (cfg : Config) : InitTrace :=
  match cfg.issuer with
  | none => ⟨.error .typeError, false⟩
  | some iss =>
    if cfg.client_id.isSome != cfg.client_secret.isSome then
      ⟨.error .typeError, false⟩
    else if cfg.jwks_uri.isNone || cfg.client_id.isSome then
      match env.discovery with
      | none => ⟨.error .discoveryError, true⟩
      | some doc =>
        ⟨finishInit env now cfg iss (cfg.jwks_uri.getD doc.jwks_uri)
            (cfg.introspection_endpoint.getD doc.introspection_endpoint)
            doc.introspection_endpoint_auth_methods_supported, true⟩
    else
      ⟨finishInit env now cfg iss (cfg.jwks_uri.getD "") "" [], false⟩

/-- Modelled from the spec: the key store's refresh cycle (spec section 4.3):
re-invoke fetch and atomically swap the installed set; on failure the
previous set stays active and the process does not crash (the function is
total and returns the unchanged state). -/
def refresh (env : Env) (now : Nat) (d : Decorator) : Decorator :=
  match env.fetchKeys d._jwks_uri with
  | none => d
  | some keys =>
    { d with
        _issuer_public_keys := keys
        _jwks_last_update_timestamp := some now }

/-- Modelled from the spec: introspection is enabled exactly when the client
credential pair is configured (spec sections 3 and 4.4). -/
def introspectionEnabled (d : Decorator) : Bool :=
  d._client_id.isSome && d._client_secret.isSome

/-- Modelled from the spec: map an active introspection response's fields
into TokenClaims (spec section 4.4 step 2). -/
def claimsOfResponse (r : IntrospectionResponse) : TokenClaims :=
  { sub := r.sub, iss := r.iss, exp := r.exp, scope := r.scope }

/-- Modelled from the spec: interpret the `active` boolean of an
introspection response (spec section 4.4 step 2): `false` or absent means an
invalid-token failure; `true` maps the response into TokenClaims. -/
def interpretIntrospection (r : IntrospectionResponse) :
    Except VerifyError TokenClaims :=
  match r.active with
  | some true => .ok (claimsOfResponse r)
  | _ => .error .invalidToken

/-- Modelled from the spec: the local (self-encoded) verification path
(spec section 4.4 step 3): resolve the key by id, check signature, issuer
and expiry; any failure is an invalid-token outcome. -/
def localVerify (d : Decorator) (now : Nat) (tok : Token) :
    Except VerifyError TokenClaims :=
  match d._issuer_public_keys.lookup tok.kid with
  | none => .error .invalidToken
  | some key =>
    if tok.sigValid key && tok.iss == d._issuer && decide (now < tok.exp) then
      .ok { sub := tok.sub, iss := tok.iss, exp := tok.exp, scope := tok.scope }
    else
      .error .invalidToken

/-- Modelled from the spec: the per-call verification entry point
(spec section 4.4 and the section 9 design note: introspection is
authoritative whenever client credentials are configured); a transport
failure of the introspection call surfaces as a verification failure. -/
def verifyToken (env : Env) (now : Nat) (d : Decorator) (tok : Token) :
    Except VerifyError TokenClaims :=
  if introspectionEnabled d then
    match env.introspect tok with
    | none => .error .transportError
    | some r => interpretIntrospection r
  else
    localVerify d now tok

/-! Concrete sample data, mirroring the reference setup of the functional
tests (issuer https://issuer.local/oauth2, keys at <issuer>/keys,
introspection at <issuer>/introspect, client_secret_post offered). -/

def sampleIssuer : String := "https://issuer.local/oauth2"

def sampleKeys : List (String × String) :=
  [("key-1", "public-key-material-1")]

def sampleDoc : DiscoveryDocument :=
  { jwks_uri := "https://issuer.local/oauth2/keys"
    introspection_endpoint := "https://issuer.local/oauth2/introspect"
    introspection_endpoint_auth_methods_supported :=
      ["client_secret_basic", "client_secret_post"] }

def sampleInactiveResponse : IntrospectionResponse :=
  { active := some false, sub := "alice", iss := sampleIssuer
    exp := 1000, scope := ["read"] }

def sampleToken : Token :=
  { kid := "key-1", alg := "RS256", iss := sampleIssuer, sub := "alice"
    exp := 1000, scope := ["read"], sigValid := fun _ => true }

def sampleEnv : Env :=
  { discovery := some sampleDoc
    fetchKeys := fun _ => some sampleKeys
    introspect := fun _ => some sampleInactiveResponse }

def downEnv : Env :=
  { discovery := none
    fetchKeys := fun _ => none
    introspect := fun _ => none }

def sampleIntroDecorator : Decorator :=
  { _issuer := sampleIssuer
    _jwks_uri := sampleDoc.jwks_uri
    _issuer_public_keys := sampleKeys
    _client_id := some "foo-client"
    _client_secret := some "very-secure"
    _jwks_update_interval := none
    _executor := false
    _jwks_last_update_timestamp := none
    _introspection_endpoint := some sampleDoc.introspection_endpoint
    _introspection_auth_method := some "client_secret_post" }

def samplePlainDecorator : Decorator :=
  { _issuer := sampleIssuer
    _jwks_uri := sampleDoc.jwks_uri
    _issuer_public_keys := sampleKeys
    _client_id := none
    _client_secret := none
    _jwks_update_interval := none
    _executor := false
    _jwks_last_update_timestamp := none
    _introspection_endpoint := none
    _introspection_auth_method := none }

def sampleRefreshDecorator : Decorator :=
  { _issuer := sampleIssuer
    _jwks_uri := sampleDoc.jwks_uri
    _issuer_public_keys := sampleKeys
    _client_id := none
    _client_secret := none
    _jwks_update_interval := some 1234
    _executor := true
    _jwks_last_update_timestamp := some 7
    _introspection_endpoint := none
    _introspection_auth_method := none }

/-! Theorems. -/

/-- C1: with introspection enabled, an introspection response whose `active`
field is false or absent always yields the invalid-token outcome — the local
signature path is never consulted, so this holds regardless of whether the
token's signature would verify locally — and only a response with `active`
true is mapped into a TokenClaims result. -/
theorem introspection_active_gate (env : Env) (now : Nat) (d : Decorator)
    (tok : Token) (r : IntrospectionResponse)
    (henabled : introspectionEnabled d = true)
    (hresp : env.introspect tok = some r) :
    (r.active ≠ some true →
      verifyToken env now d tok = .error .invalidToken) ∧
    (r.active = some true →
      verifyToken env now d tok = .ok (claimsOfResponse r)) := by
  have hv : verifyToken env now d tok = interpretIntrospection r := by
    simp [verifyToken, henabled, hresp]
  rcases hr : r.active with _ | b
  · exact ⟨fun _ => by simp [hv, interpretIntrospection, hr],
      fun hc => by simp [hr] at hc⟩
  · cases b
    · exact ⟨fun _ => by simp [hv, interpretIntrospection, hr],
        fun hc => by simp [hr] at hc⟩
    · exact ⟨fun hne => absurd rfl (hr ▸ hne),
        fun _ => by simp [hv, interpretIntrospection, hr]⟩

/-- C1 witness: evaluated on the sample environment whose introspection
endpoint reports the sample token inactive. -/
theorem introspection_active_gate_witness :
    (sampleInactiveResponse.active ≠ some true →
      verifyToken sampleEnv 0 sampleIntroDecorator sampleToken =
        .error .invalidToken) ∧
    (sampleInactiveResponse.active = some true →
      verifyToken sampleEnv 0 sampleIntroDecorator sampleToken =
        .ok (claimsOfResponse sampleInactiveResponse)) :=
  introspection_active_gate sampleEnv 0 sampleIntroDecorator sampleToken
    sampleInactiveResponse rfl rfl

/-- C2: any configuration with the issuer absent makes construction fail
with the configuration error (TypeError); no decorator is produced. -/
theorem missing_issuer_config_error (env : Env) (now : Nat) (cfg : Config)
    (h : cfg.issuer = none) :
    (init env now cfg).result = .error .typeError := by
  simp [init, h]

/-- C2 witness: the empty configuration of test_missing_config. -/
theorem missing_issuer_config_error_witness :
    (init sampleEnv 0 ⟨none, none, none, none, none, none⟩).result =
      .error .typeError :=
  missing_issuer_config_error sampleEnv 0 _ rfl

/-- C3: any configuration setting exactly one of client id and client secret
makes construction fail with the configuration error (TypeError), whatever
the other options are. -/
theorem half_credential_config_error (env : Env) (now : Nat) (cfg : Config)
    (h : cfg.client_id.isSome ≠ cfg.client_secret.isSome) :
    (init env now cfg).result = .error .typeError := by
  rcases hi : cfg.issuer with _ | iss
  · simp [init, hi]
  · have hb : (cfg.client_id.isSome != cfg.client_secret.isSome) = true :=
      bne_iff_ne.mpr h
    simp [init, hi, hb]

/-- C3 witness: the client-id-without-secret configuration of
test_introspection_setup_without_secret. -/
theorem half_credential_config_error_witness :
    (init sampleEnv 0
        ⟨some sampleIssuer, none, some "foo-client", none, none, none⟩).result =
      .error .typeError :=
  half_credential_config_error sampleEnv 0 _ (by decide)

/-- C4: with only the issuer configured, construction resolves the key-set
URI to the jwks_uri published in the discovery metadata and installs exactly
the keys published at that URI. -/
theorem issuer_only_resolution (env : Env) (now : Nat) (iss : String)
    (doc : DiscoveryDocument) (keys : List (String × String))
    (hdisc : env.discovery = some doc)
    (hkeys : env.fetchKeys doc.jwks_uri = some keys) :
    ∃ d, (init env now ⟨some iss, none, none, none, none, none⟩).result =
        .ok d ∧
      d._jwks_uri = doc.jwks_uri ∧ d._issuer_public_keys = keys := by
  have h : (init env now ⟨some iss, none, none, none, none, none⟩).result =
      .ok { _issuer := iss, _jwks_uri := doc.jwks_uri
            _issuer_public_keys := keys, _client_id := none
            _client_secret := none, _jwks_update_interval := none
            _executor := false, _jwks_last_update_timestamp := none
            _introspection_endpoint := none
            _introspection_auth_method := none } := by
    simp [init, hdisc, finishInit, baseDecorator, hkeys]
  exact ⟨_, h, rfl, rfl⟩

/-- C4 witness: in the reference setup the discovered jwks_uri is
<issuer>/keys and the installed set is the sample key set. -/
theorem issuer_only_resolution_witness :
    ∃ d, (init sampleEnv 0
        ⟨some sampleIssuer, none, none, none, none, none⟩).result = .ok d ∧
      d._jwks_uri = sampleDoc.jwks_uri ∧ d._issuer_public_keys = sampleKeys :=
  issuer_only_resolution sampleEnv 0 sampleIssuer sampleDoc sampleKeys rfl rfl

/-- C5: with the issuer and an explicit key-set URI and no credentials,
construction never fetches discovery metadata, keeps the explicit key-set
URI, and loads the key set from it. -/
theorem explicit_jwks_uri_no_discovery (env : Env) (now : Nat)
    (iss juri : String) (keys : List (String × String))
    (hkeys : env.fetchKeys juri = some keys) :
    (init env now ⟨some iss, some juri, none, none, none, none⟩).discoveryCalled
        = false ∧
    ∃ d, (init env now ⟨some iss, some juri, none, none, none, none⟩).result =
        .ok d ∧
      d._jwks_uri = juri ∧ d._issuer_public_keys = keys := by
  have h : (init env now ⟨some iss, some juri, none, none, none, none⟩).result =
      .ok { _issuer := iss, _jwks_uri := juri
            _issuer_public_keys := keys, _client_id := none
            _client_secret := none, _jwks_update_interval := none
            _executor := false, _jwks_last_update_timestamp := none
            _introspection_endpoint := none
            _introspection_auth_method := none } := by
    simp [init, finishInit, baseDecorator, hkeys]
  exact ⟨by simp [init], ⟨_, h, rfl, rfl⟩⟩

/-- C5 witness: explicit key-set URI in an environment whose discovery
endpoint is down, showing discovery is not needed. -/
theorem explicit_jwks_uri_no_discovery_witness :
    (init { downEnv with fetchKeys := fun _ => some sampleKeys } 0
        ⟨some sampleIssuer, some sampleDoc.jwks_uri, none, none, none,
          none⟩).discoveryCalled = false ∧
    ∃ d, (init { downEnv with fetchKeys := fun _ => some sampleKeys } 0
        ⟨some sampleIssuer, some sampleDoc.jwks_uri, none, none, none,
          none⟩).result = .ok d ∧
      d._jwks_uri = sampleDoc.jwks_uri ∧ d._issuer_public_keys = sampleKeys :=
  explicit_jwks_uri_no_discovery _ 0 sampleIssuer sampleDoc.jwks_uri
    sampleKeys rfl

/-- Helper: a selected auth method is one of the offered ones. -/
theorem selectAuthMethod_mem (offered : List String) (m : String)
    (h : selectAuthMethod offered = some m) : offered.contains m = true := by
  have := List.find?_some h
  simpa using this

/-- Helper: client_secret_post is selected whenever it is offered. -/
theorem selectAuthMethod_post (offered : List String)
    (h : offered.contains "client_secret_post" = true) :
    selectAuthMethod offered = some "client_secret_post" := by
  have hm : ("client_secret_post" ∈ offered) := by simpa using h
  simp [selectAuthMethod, libraryAuthMethods, List.find?, hm]

/-- C6: with both credentials configured and no explicit introspection
endpoint, the resolved endpoint and the active auth method come from the
discovery document; the selected method is one the document lists as
supported, and it is client_secret_post whenever the document offers it. -/
theorem introspection_discovery_resolution (env : Env) (now : Nat)
    (iss cid csec : String) (doc : DiscoveryDocument)
    (keys : List (String × String)) (m : String)
    (hdisc : env.discovery = some doc)
    (hkeys : env.fetchKeys doc.jwks_uri = some keys)
    (hsel : selectAuthMethod doc.introspection_endpoint_auth_methods_supported
        = some m) :
    ∃ d, (init env now
        ⟨some iss, none, some cid, some csec, none, none⟩).result = .ok d ∧
      d._introspection_endpoint = some doc.introspection_endpoint ∧
      d._introspection_auth_method = some m ∧
      doc.introspection_endpoint_auth_methods_supported.contains m = true ∧
      (doc.introspection_endpoint_auth_methods_supported.contains
          "client_secret_post" = true → m = "client_secret_post") := by
  have h : (init env now
      ⟨some iss, none, some cid, some csec, none, none⟩).result =
      .ok { _issuer := iss, _jwks_uri := doc.jwks_uri
            _issuer_public_keys := keys, _client_id := some cid
            _client_secret := some csec, _jwks_update_interval := none
            _executor := false, _jwks_last_update_timestamp := none
            _introspection_endpoint := some doc.introspection_endpoint
            _introspection_auth_method := some m } := by
    simp [init, hdisc, finishInit, baseDecorator, hkeys, hsel]
  refine ⟨_, h, rfl, rfl, selectAuthMethod_mem _ _ hsel, fun hpost => ?_⟩
  have := selectAuthMethod_post _ hpost
  rw [this] at hsel
  exact (Option.some.inj hsel).symm

/-- C6 witness: the sample discovery document offers client_secret_basic and
client_secret_post; client_secret_post is selected. -/
theorem introspection_discovery_resolution_witness :
    ∃ d, (init sampleEnv 0
        ⟨some sampleIssuer, none, some "foo-client", some "very-secure",
          none, none⟩).result = .ok d ∧
      d._introspection_endpoint = some sampleDoc.introspection_endpoint ∧
      d._introspection_auth_method = some "client_secret_post" ∧
      sampleDoc.introspection_endpoint_auth_methods_supported.contains
          "client_secret_post" = true ∧
      (sampleDoc.introspection_endpoint_auth_methods_supported.contains
          "client_secret_post" = true → "client_secret_post" =
            "client_secret_post") :=
  introspection_discovery_resolution sampleEnv 0 sampleIssuer "foo-client"
    "very-secure" sampleDoc sampleKeys "client_secret_post" rfl rfl
    (by decide)

/-- C7: with both credentials and an explicit introspection endpoint (and an
explicit key-set URI, so no field needs deriving), construction still
fetches discovery metadata for the supported auth methods, keeps the
explicit endpoint rather than the discovered one, and selects the active
method from the document. -/
theorem explicit_endpoint_auth_discovery (env : Env) (now : Nat)
    (iss juri cid csec ep : String) (doc : DiscoveryDocument)
    (keys : List (String × String)) (m : String)
    (hdisc : env.discovery = some doc)
    (hkeys : env.fetchKeys juri = some keys)
    (hsel : selectAuthMethod doc.introspection_endpoint_auth_methods_supported
        = some m) :
    (init env now ⟨some iss, some juri, some cid, some csec, none,
        some ep⟩).discoveryCalled = true ∧
    ∃ d, (init env now ⟨some iss, some juri, some cid, some csec, none,
        some ep⟩).result = .ok d ∧
      d._introspection_endpoint = some ep ∧
      d._introspection_auth_method = some m ∧ d._jwks_uri = juri := by
  have h : (init env now
      ⟨some iss, some juri, some cid, some csec, none, some ep⟩).result =
      .ok { _issuer := iss, _jwks_uri := juri
            _issuer_public_keys := keys, _client_id := some cid
            _client_secret := some csec, _jwks_update_interval := none
            _executor := false, _jwks_last_update_timestamp := none
            _introspection_endpoint := some ep
            _introspection_auth_method := some m } := by
    simp [init, hdisc, finishInit, baseDecorator, hkeys, hsel]
  exact ⟨by simp [init, hdisc], ⟨_, h, rfl, rfl, rfl⟩⟩

/-- C7 witness: explicit introspection endpoint alongside the sample
discovery document. -/
theorem explicit_endpoint_auth_discovery_witness :
    (init sampleEnv 0 ⟨some sampleIssuer, some sampleDoc.jwks_uri,
        some "foo-client", some "very-secure", none,
        some "https://issuer.local/oauth2/introspect"⟩).discoveryCalled
      = true ∧
    ∃ d, (init sampleEnv 0 ⟨some sampleIssuer, some sampleDoc.jwks_uri,
        some "foo-client", some "very-secure", none,
        some "https://issuer.local/oauth2/introspect"⟩).result = .ok d ∧
      d._introspection_endpoint =
        some "https://issuer.local/oauth2/introspect" ∧
      d._introspection_auth_method = some "client_secret_post" ∧
      d._jwks_uri = sampleDoc.jwks_uri :=
  explicit_endpoint_auth_discovery sampleEnv 0 sampleIssuer
    sampleDoc.jwks_uri "foo-client" "very-secure"
    "https://issuer.local/oauth2/introspect" sampleDoc sampleKeys
    "client_secret_post" rfl rfl (by decide)

/-- C8: a failed key fetch during refresh leaves the previously installed
key set (indeed the whole verifier state) unchanged and returns normally,
while the same failure during the initial fetch at construction is fatal. -/
theorem key_fetch_failure_policy (env : Env) (now : Nat) (d : Decorator)
    (iss juri : String)
    (hd : env.fetchKeys d._jwks_uri = none)
    (hj : env.fetchKeys juri = none) :
    refresh env now d = d ∧
    (init env now ⟨some iss, some juri, none, none, none, none⟩).result =
      .error .keyFetchError := by
  constructor
  · simp [refresh, hd]
  · simp [init, finishInit, hj]

/-- C8 witness: an environment whose key-set endpoint is down. -/
theorem key_fetch_failure_policy_witness :
    refresh downEnv 0 sampleIntroDecorator = sampleIntroDecorator ∧
    (init downEnv 0 ⟨some sampleIssuer, some sampleDoc.jwks_uri, none, none,
        none, none⟩).result = .error .keyFetchError :=
  key_fetch_failure_policy downEnv 0 sampleIntroDecorator sampleIssuer
    sampleDoc.jwks_uri rfl rfl

/-- Helper: any decorator produced by finishInit has its refresh task and
timestamp determined by the configured interval. -/
theorem finishInit_refresh_fields (env : Env) (now : Nat) (cfg : Config)
    (iss juri ep : String) (methods : List String) (d : Decorator)
    (h : finishInit env now cfg iss juri ep methods = .ok d) :
    d._executor = cfg.jwks_update_interval.isSome ∧
    d._jwks_last_update_timestamp =
      (if cfg.jwks_update_interval.isSome then some now else none) := by
  unfold finishInit at h
  split at h
  · simp at h
  · split at h
    · split at h
      · simp at h
      · obtain rfl := Except.ok.inj h
        exact ⟨rfl, rfl⟩
    · obtain rfl := Except.ok.inj h
      exact ⟨rfl, rfl⟩

/-- Helper: the same, for any successful construction. -/
theorem init_ok_refresh_fields (env : Env) (now : Nat) (cfg : Config)
    (d : Decorator) (h : (init env now cfg).result = .ok d) :
    d._executor = cfg.jwks_update_interval.isSome ∧
    d._jwks_last_update_timestamp =
      (if cfg.jwks_update_interval.isSome then some now else none) := by
  unfold init at h
  rcases hi : cfg.issuer with _ | iss <;> rw [hi] at h <;> simp only [] at h
  · simp at h
  · by_cases hb : (cfg.client_id.isSome != cfg.client_secret.isSome) = true
    · rw [if_pos hb] at h
      simp at h
    · rw [if_neg hb] at h
      by_cases hn : (cfg.jwks_uri.isNone || cfg.client_id.isSome) = true
      · rw [if_pos hn] at h
        rcases hd2 : env.discovery with _ | doc <;> rw [hd2] at h <;>
          simp only [] at h
        · simp at h
        · exact finishInit_refresh_fields env now cfg iss
            (cfg.jwks_uri.getD doc.jwks_uri)
            (cfg.introspection_endpoint.getD doc.introspection_endpoint)
            doc.introspection_endpoint_auth_methods_supported d h
      · rw [if_neg hn] at h
        simp only [] at h
        exact finishInit_refresh_fields env now cfg iss
          (cfg.jwks_uri.getD "") "" [] d h

/-- C9: after a successful construction, a key-refresh interval is
configured if and only if the recurring refresh task exists and the
last-refresh timestamp is initialized; and with no interval configured,
neither a refresh task nor a timestamp is created. -/
theorem refresh_task_iff_interval (env : Env) (now : Nat) (cfg : Config)
    (d : Decorator) (h : (init env now cfg).result = .ok d) :
    (cfg.jwks_update_interval.isSome = true ↔
      (d._executor = true ∧ d._jwks_last_update_timestamp.isSome = true)) ∧
    (cfg.jwks_update_interval = none →
      d._executor = false ∧ d._jwks_last_update_timestamp = none) := by
  obtain ⟨he, ht⟩ := init_ok_refresh_fields env now cfg d h
  refine ⟨⟨fun hs => ?_, fun hc => ?_⟩, fun hn => ?_⟩
  · refine ⟨by rw [he, hs], ?_⟩
    rw [ht, if_pos hs]
    rfl
  · rw [he] at hc
    exact hc.1
  · have hs : cfg.jwks_update_interval.isSome = false := by rw [hn]; rfl
    refine ⟨by rw [he, hs], ?_⟩
    rw [ht, hs]
    rfl

/-- C9 witness: the interval-1234 configuration of
test_issuer_and_jwks_refresh_configured (clock value 7), and the
interval-free configuration of test_issuer_and_jwks_uri_configured, where
neither the refresh task nor the timestamp is created. -/
theorem refresh_task_iff_interval_witness :
    (((⟨some sampleIssuer, some sampleDoc.jwks_uri, none, none, some 1234,
        none⟩ : Config).jwks_update_interval.isSome = true ↔
      (sampleRefreshDecorator._executor = true ∧
        sampleRefreshDecorator._jwks_last_update_timestamp.isSome = true)) ∧
    ((⟨some sampleIssuer, some sampleDoc.jwks_uri, none, none, some 1234,
        none⟩ : Config).jwks_update_interval = none →
      sampleRefreshDecorator._executor = false ∧
        sampleRefreshDecorator._jwks_last_update_timestamp = none)) ∧
    (((⟨some sampleIssuer, some sampleDoc.jwks_uri, none, none, none,
        none⟩ : Config).jwks_update_interval.isSome = true ↔
      (samplePlainDecorator._executor = true ∧
        samplePlainDecorator._jwks_last_update_timestamp.isSome = true)) ∧
    ((⟨some sampleIssuer, some sampleDoc.jwks_uri, none, none, none,
        none⟩ : Config).jwks_update_interval = none →
      samplePlainDecorator._executor = false ∧
        samplePlainDecorator._jwks_last_update_timestamp = none)) :=
  ⟨refresh_task_iff_interval sampleEnv 7 _ sampleRefreshDecorator rfl,
    refresh_task_iff_interval sampleEnv 7 _ samplePlainDecorator rfl⟩

/-- C10: both invalid configurations — missing issuer, and client id set
without client secret — make construction fail with exactly
InitError.typeError, the constructor modelling Python's built-in TypeError
that the functional tests pin with pytest.raises(TypeError); no dedicated
configuration-error value exists in the error taxonomy. -/
theorem invalid_config_raises_type_error (env : Env) (now : Nat)
    (cfgA cfgB : Config) (hA : cfgA.issuer = none)
    (hB1 : cfgB.client_id.isSome = true) (hB2 : cfgB.client_secret = none) :
    (init env now cfgA).result = .error .typeError ∧
    (init env now cfgB).result = .error .typeError := by
  constructor
  · simp [init, hA]
  · rcases hi : cfgB.issuer with _ | iss
    · simp [init, hi]
    · have hb : (cfgB.client_id.isSome != cfgB.client_secret.isSome) =
          true := by
        simp [hB1, hB2]
      simp [init, hi, hb]

/-- C10 witness: the two invalid configurations of the functional tests. -/
theorem invalid_config_raises_type_error_witness :
    (init sampleEnv 0 ⟨none, none, none, none, none, none⟩).result =
      .error .typeError ∧
    (init sampleEnv 0 ⟨some sampleIssuer, none, some "foo-client", none,
        none, none⟩).result = .error .typeError :=
  invalid_config_raises_type_error sampleEnv 0 _ _ rfl rfl rfl

end FlaskOAuth2
